import Mathlib

/-!
Verification development for the razorpay-verify-payment repository.

The repository consists of serverless handler variants:
 - `src/index.js` holds two payment-verification handler variants
   (called `verifyA` and `verifyB` below, in file order);
 - `src/unnamed/part_001` is a third verification variant with shipping
   handling (`verifyC` below);
 - `src/unnamed/part_002` is the order-creation handler (`createOrder` below);
 - `src/unnamed/part_003` is a CLI-style order-creation script;
 - `src/unnamed/part_000` is a minimal store smoke test.

The embedding models each handler as a pure function from its inputs
(environment, request, injected external collaborators) to a triple of
the HTTP-style response, the ordered trace of external calls issued, and
the final document-store state.  External collaborators excluded from the
specification scope (the Razorpay SDK network operations, the Appwrite
document store, JSON parsing) are passed in as explicit function
parameters or modelled as explicit state; HMAC-SHA256, the sole
cryptographic primitive, is implemented concretely and executably below
so that signature-check claims are settled against the real function.
-/

/-! ## Byte-level SHA-256 and HMAC-SHA256

Executable translation of the `crypto.createHmac("sha256", secret)
.update(msg).digest("hex")` pipeline used by every verification variant.
Bytes are `Nat` values below 256; 32-bit words are `Nat` values reduced
modulo `2 ^ 32` at every arithmetic step. -/

/-- Reduce to an unsigned 32-bit word. -/
def u32 (n : Nat) : Nat := n % 4294967296

/-- Right rotation of a 32-bit word by `k` bits. -/
def rotr32 (k n : Nat) : Nat := u32 ((n >>> k) ||| (n <<< (32 - k)))

/-- Big-endian byte decomposition of `n` into `k` bytes. -/
def beBytes (k n : Nat) : List Nat :=
  (List.range k).map (fun i => (n >>> (8 * (k - 1 - i))) % 256)

/-- SHA-256 round constants. -/
def sha256K : List Nat :=
  [1116352408, 1899447441, 3049323471, 3921009573, 961987163,
   1508970993, 2453635748, 2870763221, 3624381080, 310598401,
   607225278, 1426881987, 1925078388, 2162078206, 2614888103,
   3248222580, 3835390401, 4022224774, 264347078, 604807628,
   770255983, 1249150122, 1555081692, 1996064986, 2554220882,
   2821834349, 2952996808, 3210313671, 3336571891, 3584528711,
   113926993, 338241895, 666307205, 773529912, 1294757372,
   1396182291, 1695183700, 1986661051, 2177026350, 2456956037,
   2730485921, 2820302411, 3259730800, 3345764771, 3516065817,
   3600352804, 4094571909, 275423344, 430227734, 506948616,
   659060556, 883997877, 958139571, 1322822218, 1537002063,
   1747873779, 1955562222, 2024104815, 2227730452, 2361852424,
   2428436474, 2756734187, 3204031479, 3329325298]

/-- SHA-256 initial hash values. -/
def sha256H0 : List Nat :=
  [1779033703, 3144134277, 1013904242, 2773480762,
   1359893119, 2600822924, 528734635, 1541459225]

/-- SHA-256 message padding: `0x80`, zeros to 56 mod 64, 8-byte big-endian
bit length. -/
def sha256pad (msg : List Nat) : List Nat :=
  let len := msg.length
  let padZeros := (120 - ((len + 1) % 64)) % 64
  msg ++ [0x80] ++ List.replicate padZeros 0 ++ beBytes 8 (8 * len)

/-- Split a byte list into 64-byte blocks (fuel-based structural recursion). -/
def chunks64Go : Nat → List Nat → List (List Nat)
  | 0, _ => []
  | _ + 1, [] => []
  | fuel + 1, l => l.take 64 :: chunks64Go fuel (l.drop 64)

/-- Split a byte list into 64-byte blocks. -/
def chunks64 (l : List Nat) : List (List Nat) := chunks64Go (l.length + 1) l

/-- The 16 initial 32-bit words of a 64-byte block, big-endian. -/
def wordsOfBlock (b : List Nat) : List Nat :=
  (List.range 16).map (fun i =>
    ((b.getD (4 * i) 0) <<< 24) ||| ((b.getD (4 * i + 1) 0) <<< 16) |||
    ((b.getD (4 * i + 2) 0) <<< 8) ||| (b.getD (4 * i + 3) 0))

/-- The next word of the SHA-256 message schedule, from the last 16 words. -/
def sha256NextWord (w : List Nat) : Nat :=
  let n := w.length
  let x := w.getD (n - 15) 0
  let y := w.getD (n - 2) 0
  let s0 := (rotr32 7 x) ^^^ (rotr32 18 x) ^^^ (x >>> 3)
  let s1 := (rotr32 17 y) ^^^ (rotr32 19 y) ^^^ (y >>> 10)
  u32 (w.getD (n - 16) 0 + s0 + w.getD (n - 7) 0 + s1)

/-- Extend 16 schedule words to 64. -/
def sha256Schedule (b : List Nat) : List Nat :=
  (List.range 48).foldl (fun w _ => w ++ [sha256NextWord w]) (wordsOfBlock b)

/-- Working state of the SHA-256 compression function. -/
structure Sha256State where
  a : Nat
  b : Nat
  c : Nat
  d : Nat
  e : Nat
  f : Nat
  g : Nat
  h : Nat
deriving Repr, DecidableEq

/-- One SHA-256 compression round with round constant `k` and schedule
word `w`. -/
def sha256Round (st : Sha256State) (kw : Nat × Nat) : Sha256State :=
  let s1 := (rotr32 6 st.e) ^^^ (rotr32 11 st.e) ^^^ (rotr32 25 st.e)
  let ch := (st.e &&& st.f) ^^^ ((st.e ^^^ 0xffffffff) &&& st.g)
  let temp1 := u32 (st.h + s1 + ch + kw.1 + kw.2)
  let s0 := (rotr32 2 st.a) ^^^ (rotr32 13 st.a) ^^^ (rotr32 22 st.a)
  let maj := (st.a &&& st.b) ^^^ (st.a &&& st.c) ^^^ (st.b &&& st.c)
  let temp2 := u32 (s0 + maj)
  { a := u32 (temp1 + temp2), b := st.a, c := st.b, d := st.c,
    e := u32 (st.d + temp1), f := st.e, g := st.f, h := st.g }

/-- Process one 64-byte block, updating the 8-word hash value. -/
def sha256Block (hs : List Nat) (block : List Nat) : List Nat :=
  let w := sha256Schedule block
  let init : Sha256State :=
    { a := hs.getD 0 0, b := hs.getD 1 0, c := hs.getD 2 0, d := hs.getD 3 0,
      e := hs.getD 4 0, f := hs.getD 5 0, g := hs.getD 6 0, h := hs.getD 7 0 }
  let fin := (sha256K.zip w).foldl sha256Round init
  [u32 (hs.getD 0 0 + fin.a), u32 (hs.getD 1 0 + fin.b),
   u32 (hs.getD 2 0 + fin.c), u32 (hs.getD 3 0 + fin.d),
   u32 (hs.getD 4 0 + fin.e), u32 (hs.getD 5 0 + fin.f),
   u32 (hs.getD 6 0 + fin.g), u32 (hs.getD 7 0 + fin.h)]

/-- SHA-256 of a byte list, as a 32-byte list. -/
def sha256 (msg : List Nat) : List Nat :=
  ((chunks64 (sha256pad msg)).foldl sha256Block sha256H0).flatMap (beBytes 4)

/-- HMAC-SHA256 with byte-list key and message (RFC 2104 over SHA-256). -/
def hmacSha256 (key msg : List Nat) : List Nat :=
  let k0 := if key.length > 64 then sha256 key else key
  let kp := k0 ++ List.replicate (64 - k0.length) 0
  let ipad := kp.map (fun b => b ^^^ 0x36)
  let opad := kp.map (fun b => b ^^^ 0x5c)
  sha256 (opad ++ sha256 (ipad ++ msg))

/-- One lowercase hex digit. -/
def hexDigit (n : Nat) : Char :=
  if n < 10 then Char.ofNat (48 + n) else Char.ofNat (87 + n)

/-- Lowercase hex rendering of a byte list. -/
def bytesToHex (l : List Nat) : String :=
  String.mk (l.flatMap (fun b => [hexDigit (b / 16), hexDigit (b % 16)]))

/-- UTF-8 encoding of one character (what `crypto.update` applies to
JavaScript strings). -/
def utf8Bytes (c : Char) : List Nat :=
  let n := c.toNat
  if n < 0x80 then [n]
  else if n < 0x800 then [0xc0 ||| (n >>> 6), 0x80 ||| (n &&& 0x3f)]
  else if n < 0x10000 then
    [0xe0 ||| (n >>> 12), 0x80 ||| ((n >>> 6) &&& 0x3f), 0x80 ||| (n &&& 0x3f)]
  else
    [0xf0 ||| (n >>> 18), 0x80 ||| ((n >>> 12) &&& 0x3f),
     0x80 ||| ((n >>> 6) &&& 0x3f), 0x80 ||| (n &&& 0x3f)]

/-- UTF-8 bytes of a string. -/
def strBytes (s : String) : List Nat := s.data.flatMap utf8Bytes

/-- `crypto.createHmac("sha256", secret).update(msg).digest("hex")`:
the hex HMAC-SHA256 digest computed by every verification variant. -/
def hmacSha256Hex (secret msg : String) : String :=
  bytesToHex (hmacSha256 (strBytes secret) (strBytes msg))

/-! ## JavaScript value basics

Numbers are rationals plus `NaN` (JSON numbers and every arithmetic
result the handlers produce are exact decimals, so `ℚ` is lossless here);
strings and identifiers keep their JSON shapes.  `Option String` models a
possibly-`undefined` string field, with JS truthiness (`none` and
`some ""` are falsy). -/

/-- A JavaScript number: a rational or `NaN`. -/
inductive JsNum where
  | nan
  | num (q : ℚ)
deriving Repr, DecidableEq

/-- JS truthiness of a number (`0` and `NaN` are falsy). -/
def JsNum.truthy : JsNum → Bool
  | .nan => false
  | .num q => if q = 0 then false else true

/-- `Math.round`: round half toward positive infinity. -/
def jsRound (q : ℚ) : ℤ := ⌊q + 1 / 2⌋

/-- `Math.round` lifted to JS numbers (`Math.round(NaN)` is `NaN`). -/
def JsNum.round : JsNum → JsNum
  | .nan => .nan
  | .num q => .num (jsRound q : ℤ)

/-- Multiplication by a rational constant, propagating `NaN`. -/
def JsNum.mulC : JsNum → ℚ → JsNum
  | .nan, _ => .nan
  | .num q, c => .num (q * c)

/-- JS strict equality `===` on numbers: `NaN` equals nothing. -/
def jsEqNum : JsNum → JsNum → Bool
  | .num x, .num y => if x = y then true else false
  | _, _ => false

/-- JS truthiness of a possibly-undefined string. -/
def truthyStr : Option String → Bool
  | some s => if s = "" then false else true
  | none => false

/-- JS `a || b` on possibly-undefined strings. -/
def jsOrStr (a b : Option String) : Option String :=
  if truthyStr a then a else b

/-- JS truthiness of a possibly-undefined number. -/
def truthyNum : Option JsNum → Bool
  | some n => n.truthy
  | none => false

/-- `String.prototype.toLowerCase` (per-character lowering). -/
def jsToLower (s : String) : String := String.mk (s.data.map Char.toLower)

/-! ## Data model shared by the handlers -/

/-- A payment object returned by the gateway `payments.fetch` call.
`amount` is `Option` because the handlers guard on
`paymentDetails?.amount !== undefined`. -/
structure Payment where
  id : String
  amount : Option ℚ := none
  status : String := "captured"
  method : String := "card"
deriving Repr, DecidableEq

/-- A gateway order object returned by `orders.create`. -/
structure GatewayOrder where
  id : String
  amount : ℚ
  currency : String := "INR"
  receipt : Option String := none
deriving Repr, DecidableEq

/-- A line item as sent by the client: a primitive rendered as a string,
or an object with the optional attributes the handlers read. -/
structure Item where
  name : Option String := none
  title : Option String := none
  productId : Option String := none
  itemId : Option String := none
  price : Option JsNum := none
  amount : Option JsNum := none
  size : Option String := none
  sAttr : Option String := none
  sizeOption : Option String := none
  item_size : Option String := none
deriving Repr, DecidableEq

/-- A client line item: a primitive (already a string) or an object.
(`it.id` and `it.s` from the source are `itemId` and `sAttr` here.) -/
inductive ItemVal where
  | prim (s : String)
  | obj (it : Item)
deriving Repr, DecidableEq

/-- A shipping address with the client key spellings the handlers read. -/
structure Address where
  fullName : Option String := none
  full_name : Option String := none
  phone : Option String := none
  line1 : Option String := none
  line_1 : Option String := none
  line2 : Option String := none
  line_2 : Option String := none
  city : Option String := none
  state : Option String := none
  postalCode : Option String := none
  postal_code : Option String := none
  country : Option String := none
deriving Repr, DecidableEq

/-- The `shipping` body field: absent, one address object, or an array. -/
inductive ShipVal where
  | undefv
  | one (a : Address)
  | many (l : List Address)
deriving Repr, DecidableEq

/-- Structured stand-in for the `JSON.stringify` diagnostic blobs the
handlers persist in `verification_raw` (the serialized text itself is
never re-read by the code, so the blob is stored structurally). -/
inductive VBlob where
  | pdBlob (pd : Option Payment)
  | sigMismatch (generated received : String)
  | amountMismatch (expected : JsNum) (actual : Option ℚ)
  | verifiedBlob (verifiedAt : String) (pd : Option Payment)
  | orderBlob (o : Option GatewayOrder)
deriving Repr, DecidableEq

/-- A value stored under one document attribute. -/
inductive FieldVal where
  | vnull
  | str (s : String)
  | num (n : JsNum)
  | strList (l : List String)
  | itemList (l : List ItemVal)
  | addrList (l : List Address)
  | blob (b : VBlob)
deriving Repr, DecidableEq

/-- A document in the orders collection: store-assigned id plus
attribute assignments. -/
structure Doc where
  id : String
  fields : List (String × FieldVal)
deriving Repr, DecidableEq

/-- Attribute lookup on a document payload. -/
def getField (fs : List (String × FieldVal)) (k : String) : Option FieldVal :=
  List.lookup k fs

/-- Appwrite partial-update semantics: attributes in `patch` overwrite,
others are retained. -/
def mergeFields (old patch : List (String × FieldVal)) :
    List (String × FieldVal) :=
  patch ++ old.filter (fun kv => !((patch.map Prod.fst).contains kv.1))

/-- `listDocuments(..., [Query.equal("razorpay_order_id", oid), Query.limit(1)])`:
the first document whose `razorpay_order_id` attribute equals `oid`. -/
def findByOrderId (store : List Doc) (oid : String) : Option Doc :=
  store.find? (fun d =>
    match getField d.fields "razorpay_order_id" with
    | some (.str s) => s == oid
    | _ => false)

/-- `updateDocument`: apply a partial update to the document with id
`docId`. -/
def updateStore (store : List Doc) (docId : String)
    (patch : List (String × FieldVal)) : List Doc :=
  store.map (fun d =>
    if d.id = docId then ⟨d.id, mergeFields d.fields patch⟩ else d)

/-- One outbound call to an external collaborator (payment gateway or
document store), recorded in handler order. -/
inductive ExtCall where
  | fetchPayment (paymentId : String)
  | listDocuments (orderId : String)
  | createDocument (payload : List (String × FieldVal))
  | updateDocument (docId : String) (payload : List (String × FieldVal))
  | ordersCreate (amount : JsNum) (currency : Option String) (receipt : String)
deriving Repr, DecidableEq

/-- Whether a call writes to the document store. -/
def ExtCall.isWrite : ExtCall → Bool
  | .createDocument _ => true
  | .updateDocument _ _ => true
  | _ => false

/-- An HTTP-style JSON response: status code plus the `success`,
`message` and `error` body fields the handlers set. -/
structure Response where
  status : Nat := 200
  success : Bool
  message : Option String := none
  error : Option String := none
deriving Repr, DecidableEq

/-- Result of one handler invocation: response, ordered external-call
trace, final document-store state. -/
abbrev HandlerResult := Response × List ExtCall × List Doc

/-- Environment variables read by the handlers (`none` = unset). -/
structure Env where
  RAZORPAY_KEY_ID : Option String := none
  RAZORPAY_KEY_SECRET : Option String := none
  APPWRITE_ENDPOINT : Option String := none
  APPWRITE_PROJECT_ID : Option String := none
  APPWRITE_API_KEY : Option String := none
  APPWRITE_DATABASE_ID : Option String := none
  APPWRITE_ORDERS_COLLECTION_ID : Option String := none
deriving Repr, DecidableEq

/-! ## Raw JSON values and `safeParse`

`JSValue` models the JavaScript values a request body can hold.  The
external `JSON.parse` (excluded from scope as a platform collaborator) is
an injected parameter `parse : String → Option JSValue`, `none` meaning
the parse throws. -/

/-- A JavaScript value as seen by the body-parsing code. -/
inductive JSValue where
  | undefv
  | null
  | boolv (b : Bool)
  | numv (n : JsNum)
  | strv (s : String)
  | objv (fields : List (String × JSValue))
  | arrv (elems : List JSValue)

/-- JS truthiness of a value. -/
def truthyJS : JSValue → Bool
  | .undefv => false
  | .null => false
  | .boolv b => b
  | .numv n => n.truthy
  | .strv s => if s = "" then false else true
  | .objv _ => true
  | .arrv _ => true

/-- JS `a || b`. -/
def jsOrV (a b : JSValue) : JSValue := if truthyJS a then a else b

/-- Total property access: `undefined` off non-objects and for absent
keys (used after null guards). -/
def getProp (v : JSValue) (k : String) : JSValue :=
  match v with
  | .objv fs => (List.lookup k fs).getD .undefv
  | _ => .undefv

/-- Property access as executed: throws `TypeError` on `null` and
`undefined` receivers. -/
def getPropE (v : JSValue) (k : String) : Except String JSValue :=
  match v with
  | .undefv => .error "TypeError"
  | .null => .error "TypeError"
  | _ => .ok (getProp v k)

/-- `Object.assign(t, s)`: properties of `s` overwrite those of `t`
(only object-into-object occurs in the handlers). -/
def objAssign (t s : JSValue) : JSValue :=
  match t, s with
  | .objv tf, .objv sf =>
      .objv (sf ++ tf.filter (fun kv => !((sf.map Prod.fst).contains kv.1)))
  | _, _ => t

/-- `safeParse` from `src/index.js` (first variant) and
`src/unnamed/part_001`: tolerate strings and objects, return `{}` on
anything unparseable or falsy. -/
def safeParse (parse : String → Option JSValue) (raw : JSValue) : JSValue :=
  if truthyJS raw = false then .objv []
  else
    match raw with
    | .strv s =>
        match parse s with
        | some v => v
        | none => .objv []
    | .objv fs => .objv fs
    | .arrv l => .arrv l
    | _ => .objv []

/-- The body-unwrapping phase of the first `src/index.js` handler:
`safeParse` the raw transport value, then merge a nested JSON string
found under `body` or `data`.  The property accesses throw when
`safeParse` returned a non-object JSON value such as `null`. -/
def bodyPhase (parse : String → Option JSValue) (raw : JSValue) :
    Except String JSValue := do
  let bd := safeParse parse raw
  let bBody ← getPropE bd "body"
  let bd := match bBody with
    | .strv s => objAssign bd (safeParse parse (.strv s))
    | _ => bd
  let bData ← getPropE bd "data"
  let bd := match bData with
    | .strv s => objAssign bd (safeParse parse (.strv s))
    | _ => bd
  pure bd

/-- `Number(s)` on a string (integer and empty cases; the handlers apply
it only to client `amount` values). -/
def jsNumberOfString (s : String) : JsNum :=
  match s.trim.toInt? with
  | some i => .num i
  | none => if s.trim = "" then .num 0 else .nan

/-! ## The destructured verification request body -/

/-- The body fields destructured by the verification handlers.
Identifier fields keep their JSON string shape (`none` = absent or
undefined). -/
structure VerifyBody where
  razorpay_order_id : Option String := none
  razorpay_payment_id : Option String := none
  razorpay_signature : Option String := none
  userId : Option String := none
  items : Option (List ItemVal) := none
  amount : Option JsNum := none
  currency : Option String := some "INR"
  shipping : ShipVal := .undefv
  shippingPrimaryIndex : Option JsNum := none
deriving Repr, DecidableEq

/-- String field of a JSON object (identifiers are strings in every
payload the clients send). -/
def asStrProp (bd : JSValue) (k : String) : Option String :=
  match getProp bd k with
  | .strv s => some s
  | _ => none

/-- `amount`-style field: present unless `undefined`, converted by
`Number` where the handlers apply it. -/
def asNumProp (bd : JSValue) (k : String) : Option JsNum :=
  match getProp bd k with
  | .undefv => none
  | .null => some (.num 0)
  | .numv n => some n
  | .strv s => some (jsNumberOfString s)
  | .boolv b => some (.num (if b then 1 else 0))
  | _ => some .nan

/-- An `Item` from the properties of a JSON object element. -/
def itemOfProps (v : JSValue) : Item :=
  { name := asStrProp v "name", title := asStrProp v "title",
    productId := asStrProp v "productId", itemId := asStrProp v "id",
    price := asNumProp v "price", amount := asNumProp v "amount",
    size := asStrProp v "size", sAttr := asStrProp v "s",
    sizeOption := asStrProp v "sizeOption",
    item_size := asStrProp v "item_size" }

/-- One raw array element as a line item. -/
def toItemVal : JSValue → ItemVal
  | .strv s => .prim s
  | .objv fs => .obj (itemOfProps (.objv fs))
  | .numv (.num q) => .prim (if q.den = 1 then toString q.num else toString q)
  | v => .prim (if truthyJS v then "true" else "false")

/-- Destructure a parsed body value into the typed verification body
(`const { razorpay_order_id, ... } = bodyData || {}`). -/
def toVerifyBody (bd : JSValue) : VerifyBody :=
  { razorpay_order_id := asStrProp bd "razorpay_order_id",
    razorpay_payment_id := asStrProp bd "razorpay_payment_id",
    razorpay_signature := asStrProp bd "razorpay_signature",
    userId := asStrProp bd "userId",
    items := match getProp bd "items" with
      | .arrv l => some (l.map toItemVal)
      | _ => none,
    amount := asNumProp bd "amount",
    currency := match getProp bd "currency" with
      | .undefv => some "INR"
      | .strv s => some s
      | _ => none,
    shipping := match getProp bd "shipping" with
      | .arrv l => .many (l.map (fun v => itemAddr v))
      | .objv fs => .one (itemAddr (.objv fs))
      | _ => .undefv,
    shippingPrimaryIndex := match getProp bd "shippingPrimaryIndex" with
      | .numv n => some n
      | _ => none }
where
  itemAddr (v : JSValue) : Address :=
    { fullName := asStrProp v "fullName", full_name := asStrProp v "full_name",
      phone := asStrProp v "phone", line1 := asStrProp v "line1",
      line_1 := asStrProp v "line_1", line2 := asStrProp v "line2",
      line_2 := asStrProp v "line_2", city := asStrProp v "city",
      state := asStrProp v "state", postalCode := asStrProp v "postalCode",
      postal_code := asStrProp v "postal_code",
      country := asStrProp v "country" }

/-! ## Responses shared by the handlers -/

/-- 405 `Method not allowed`. -/
def resp405 : Response :=
  { status := 405, success := false, message := some "Method not allowed" }

/-- 400 `Missing required payment fields`. -/
def respMissingFields : Response :=
  { status := 400, success := false,
    message := some "Missing required payment fields" }

/-- 500 missing Razorpay credentials (first and third verification
variants). -/
def respMisconfigRz : Response :=
  { status := 500, success := false,
    message := some "Server misconfiguration: missing Razorpay credentials" }

/-- 500 missing Appwrite configuration (third verification variant). -/
def respMisconfigAw : Response :=
  { status := 500, success := false,
    message := some "Server misconfiguration: missing Appwrite config" }

/-- 400 `Invalid signature`. -/
def respInvalidSig : Response :=
  { status := 400, success := false, message := some "Invalid signature" }

/-- 400 `Payment amount mismatch`. -/
def respAmountMismatch : Response :=
  { status := 400, success := false,
    message := some "Payment amount mismatch" }

/-- 404 `Order not found` (second verification variant). -/
def respOrderNotFound : Response :=
  { status := 404, success := false, message := some "Order not found" }

/-- 200 success of the first and third verification variants. -/
def respSavedA : Response :=
  { success := true, message := some "Payment verified and order saved" }

/-- 200 success of the second verification variant. -/
def respUpdatedB : Response :=
  { success := true, message := some "Payment verified and order updated" }

/-- 500 `Unexpected error` produced by the outer catch of the first and
third variants (the only throw reachable in the model is the `TypeError`
of a property access on non-object parsed bodies). -/
def respUnexpectedA : Response :=
  { status := 500, success := false, message := some "Unexpected error",
    error := some "TypeError" }

/-! ## First verification handler (`src/index.js`, first variant) -/

/-- `Math.round(Number(amount) * 100)`: the expected-paise conversion of
both `src/index.js` verification variants (no unit heuristic). -/
def expectedPaiseA (a : JsNum) : JsNum := (a.mulC 100).round

/-- The optional amount cross-check of the first variant: active only
when the client sent an `amount` and the fetched payment has one;
compares with strict equality, so a `NaN` expected value always
mismatches. -/
def amountMismatchA (amount : Option JsNum) (pd : Option Payment) : Bool :=
  match amount, pd with
  | some a, some p =>
      match p.amount with
      | some pa => !(jsEqNum (.num pa) (expectedPaiseA a))
      | none => false
  | _, _ => false

/-- Template-literal rendering of a possibly-undefined string. -/
def tmplStr (o : Option String) : String := o.getD "undefined"

/-- The per-item label the first variant stores:
`` `${it.name || it.title || it.productId}${it.size ? ` (Size: ...)` : ""}` ``
for objects, `String(it)` otherwise. -/
def itemLabelA : ItemVal → String
  | .prim s => s
  | .obj it =>
      tmplStr (jsOrStr (jsOrStr it.name it.title) it.productId) ++
      (if truthyStr it.size then " (Size: " ++ it.size.getD "" ++ ")" else "")

/-- `items[0]?.size ? String(items[0].size) : null`. -/
def sizeFieldA (items : Option (List ItemVal)) : FieldVal :=
  match items with
  | some (.obj it :: _) =>
      match it.size with
      | some s => if s = "" then .vnull else .str s
      | none => .vnull
  | _ => .vnull

/-- `x || null` stored as a document attribute. -/
def ofOptStrOrNull (o : Option String) : FieldVal :=
  if truthyStr o then .str (o.getD "") else .vnull

/-- `paymentDetails?.amount || null`. -/
def amountPaiseField (pd : Option Payment) : FieldVal :=
  match pd with
  | some p =>
      match p.amount with
      | some q => if q = 0 then .vnull else .num (.num q)
      | none => .vnull
  | none => .vnull

/-- The document payload the first variant writes (status `paid`). -/
def payloadA (b : VerifyBody) (oid pid sig : String) (pd : Option Payment)
    (now : String) : List (String × FieldVal) :=
  [("userId", ofOptStrOrNull b.userId),
   ("amount", match b.amount with | some n => .num n | none => .vnull),
   ("amountPaise", amountPaiseField pd),
   ("currency", match b.currency with | some c => .str c | none => .vnull),
   ("razorpay_order_id", .str oid),
   ("razorpay_payment_id", .str pid),
   ("razorpay_signature", .str sig),
   ("status", .str "paid"),
   ("items", .strList (match b.items with
     | some l => l.map itemLabelA
     | none => [])),
   ("size", sizeFieldA b.items),
   ("verification_raw", .blob (.pdBlob pd)),
   ("createdAt", .str now)]

/-- The continuation of the first variant after a successful signature
check: fetch payment details (non-fatal), optional amount cross-check,
then update the existing order document or create a new one, always with
status `paid`. -/
def afterSigA (fetch : String → Except String Payment) (store : List Doc)
    (b : VerifyBody) (oid pid sig : String) (now newId : String) :
    HandlerResult :=
  let pd : Option Payment := (fetch pid).toOption
  let calls := [ExtCall.fetchPayment pid]
  if amountMismatchA b.amount pd then (respAmountMismatch, calls, store)
  else
    let payload := payloadA b oid pid sig pd now
    match findByOrderId store oid with
    | some d =>
        (respSavedA, calls ++ [.listDocuments oid, .updateDocument d.id payload],
         updateStore store d.id payload)
    | none =>
        (respSavedA, calls ++ [.listDocuments oid, .createDocument payload],
         store ++ [⟨newId, payload⟩])

/-- The first verification handler of `src/index.js`: method gate,
required-field gate, credential gate, HMAC signature check, then
`afterSigA`.  `now` is the invocation timestamp string and `newId` the
store-generated id used if a document is created. -/
def verifyA (env : Env) (fetch : String → Except String Payment)
    (store : List Doc) (method : String) (b : VerifyBody)
    (now newId : String) : HandlerResult :=
  if method ≠ "POST" then (resp405, [], store)
  else if !(truthyStr b.razorpay_order_id && truthyStr b.razorpay_payment_id &&
            truthyStr b.razorpay_signature) then
    (respMissingFields, [], store)
  else if !(truthyStr env.RAZORPAY_KEY_SECRET && truthyStr env.RAZORPAY_KEY_ID) then
    (respMisconfigRz, [], store)
  else
    let oid := b.razorpay_order_id.getD ""
    let pid := b.razorpay_payment_id.getD ""
    let sig := b.razorpay_signature.getD ""
    let generatedSignature :=
      hmacSha256Hex (env.RAZORPAY_KEY_SECRET.getD "") (oid ++ "|" ++ pid)
    if generatedSignature ≠ sig then (respInvalidSig, [], store)
    else afterSigA fetch store b oid pid sig now newId

/-- The transport fields of the first variant request. -/
structure RequestA where
  method : String := "POST"
  bodyRaw : JSValue := .undefv
  reqPayload : JSValue := .undefv
  functionData : JSValue := .undefv
  headerFunctionData : JSValue := .undefv

/-- The first variant from the raw transport value: select the first
truthy transport field (falling back to the literal `"{}"`), run the
body-unwrapping phase, and dispatch; a thrown `TypeError` is caught by
the outer handler catch as the 500 `Unexpected error` response. -/
def verifyARaw (parse : String → Option JSValue) (env : Env)
    (fetch : String → Except String Payment) (store : List Doc)
    (req : RequestA) (now newId : String) : HandlerResult :=
  if req.method ≠ "POST" then (resp405, [], store)
  else
    let raw := jsOrV req.bodyRaw (jsOrV req.reqPayload (jsOrV req.functionData
                 (jsOrV req.headerFunctionData (.strv "\x7b\x7d"))))
    match bodyPhase parse raw with
    | .error _ => (respUnexpectedA, [], store)
    | .ok bd =>
        verifyA env fetch store "POST" (toVerifyBody (jsOrV bd (.objv [])))
          now newId

/-! ## Third verification handler (`src/unnamed/part_001`) -/

/-- The amount-unit disambiguation heuristic of `src/unnamed/part_001`:
values below 1000 are treated as rupees, integer values below 1000000
are also treated as rupees, anything else is kept unchanged. -/
def expectedPaiseC : JsNum → JsNum
  | .nan => .nan
  | .num q =>
      if q < 1000 then .num (jsRound (q * 100) : ℤ)
      else if q < 1000000 ∧ q.den = 1 then .num (jsRound (q * 100) : ℤ)
      else .num q

/-- The optional amount cross-check of the third variant, using the
unit heuristic. -/
def amountMismatchC (amount : Option JsNum) (pd : Option Payment) : Bool :=
  match amount, pd with
  | some a, some p =>
      match p.amount with
      | some pa => !(jsEqNum (.num pa) (expectedPaiseC a))
      | none => false
  | _, _ => false

/-- JS truthiness of a stored attribute value (arrays and objects are
truthy even when empty). -/
def truthyFieldVal : FieldVal → Bool
  | .vnull => false
  | .str s => if s = "" then false else true
  | .num n => n.truthy
  | .strList _ => true
  | .itemList _ => true
  | .addrList _ => true
  | .blob _ => true

/-- The client `shipping` value normalized to an array. -/
def shipArrayOfVal : ShipVal → List Address
  | .many l => l
  | .one a => [a]
  | .undefv => []

/-- Shipping-array selection of the third variant: a truthy `shipping`
attribute on the existing document wins (only an array or object form is
kept; any other truthy stored form leaves the array empty), otherwise
the client value is normalized. -/
def shippingArrayC (existing : Option Doc) (client : ShipVal) : List Address :=
  match existing with
  | some d =>
      match getField d.fields "shipping" with
      | some v =>
          if truthyFieldVal v then
            match v with
            | .addrList l => l
            | _ => []
          else shipArrayOfVal client
      | none => shipArrayOfVal client
  | none => shipArrayOfVal client

/-- `shippingArray[primaryIndex] || shippingArray[0] || {}` with
`primaryIndex = Number.isInteger(shippingPrimaryIndex) ? ... : 0`. -/
def primaryAddress (arr : List Address) (idx : Option JsNum) : Address :=
  let pi : ℤ := match idx with
    | some (.num q) => if q.den = 1 then q.num else 0
    | _ => 0
  if 0 ≤ pi ∧ pi.toNat < arr.length then arr.getD pi.toNat {}
  else
    match arr with
    | a :: _ => a
    | [] => {}

/-- `normalizeStr(x || y) || null`: pick by truthiness, trim, null out
empties. -/
def flatField (a b : Option String) : Option String :=
  let v := (jsOrStr a b).map String.trim
  if truthyStr v then v else none

/-- `normalizeStr(country) || "India"`. -/
def countryField (c : Option String) : String :=
  match c.map String.trim with
  | some s => if s = "" then "India" else s
  | none => "India"

/-- An optional string as a stored attribute (`null` when absent). -/
def fvOfOpt : Option String → FieldVal
  | some s => .str s
  | none => .vnull

/-- The document payload the third variant writes (status `paid`,
shipping array plus flattened fields, `paidAt` timestamp). -/
def payloadC (b : VerifyBody) (oid pid sig : String) (pd : Option Payment)
    (shipArr : List Address) (now : String) : List (String × FieldVal) :=
  let p := primaryAddress shipArr b.shippingPrimaryIndex
  [("userId", ofOptStrOrNull b.userId),
   ("amount", match b.amount with | some n => .num n | none => .vnull),
   ("amountPaise", amountPaiseField pd),
   ("currency", match b.currency with | some c => .str c | none => .vnull),
   ("razorpay_order_id", .str oid),
   ("razorpay_payment_id", .str pid),
   ("razorpay_signature", .str sig),
   ("status", .str "paid"),
   ("items", .itemList (b.items.getD [])),
   ("verification_raw", .blob (.pdBlob pd)),
   ("shipping", .addrList shipArr),
   ("shipping_full_name", fvOfOpt (flatField p.fullName p.full_name)),
   ("shipping_phone", fvOfOpt (flatField p.phone none)),
   ("shipping_line_1", fvOfOpt (flatField p.line1 p.line_1)),
   ("shipping_line_2", fvOfOpt (flatField p.line2 p.line_2)),
   ("shipping_city", fvOfOpt (flatField p.city none)),
   ("shipping_state", fvOfOpt (flatField p.state none)),
   ("shipping_postal_code", fvOfOpt (flatField p.postalCode p.postal_code)),
   ("shipping_country", .str (countryField p.country)),
   ("paidAt", .str now)]

/-- Continuation of the third variant after the signature check: fetch
payment details (non-fatal), heuristic amount cross-check, Appwrite
configuration gate, lookup, then update or create with status `paid`. -/
def afterSigC (env : Env) (fetch : String → Except String Payment)
    (store : List Doc) (b : VerifyBody) (oid pid sig : String)
    (headerKey : Option String) (now newId : String) : HandlerResult :=
  let pd : Option Payment := (fetch pid).toOption
  let calls := [ExtCall.fetchPayment pid]
  if amountMismatchC b.amount pd then (respAmountMismatch, calls, store)
  else
    let apiKey := jsOrStr headerKey env.APPWRITE_API_KEY
    if !(truthyStr env.APPWRITE_ENDPOINT && truthyStr env.APPWRITE_PROJECT_ID &&
         truthyStr apiKey && truthyStr env.APPWRITE_DATABASE_ID &&
         truthyStr env.APPWRITE_ORDERS_COLLECTION_ID) then
      (respMisconfigAw, calls, store)
    else
      let existing := findByOrderId store oid
      let calls := calls ++ [ExtCall.listDocuments oid]
      let shipArr := shippingArrayC existing b.shipping
      let payload := payloadC b oid pid sig pd shipArr now
      match existing with
      | some d =>
          (respSavedA, calls ++ [.updateDocument d.id payload],
           updateStore store d.id payload)
      | none =>
          (respSavedA, calls ++ [.createDocument payload],
           store ++ [⟨newId, payload⟩])

/-- The `src/unnamed/part_001` verification handler: method gate,
required-field gate, credential gate, HMAC signature check, then
`afterSigC`. -/
def verifyC (env : Env) (fetch : String → Except String Payment)
    (store : List Doc) (method : String) (b : VerifyBody)
    (headerKey : Option String) (now newId : String) : HandlerResult :=
  if method ≠ "POST" then (resp405, [], store)
  else if !(truthyStr b.razorpay_order_id && truthyStr b.razorpay_payment_id &&
            truthyStr b.razorpay_signature) then
    (respMissingFields, [], store)
  else if !(truthyStr env.RAZORPAY_KEY_SECRET && truthyStr env.RAZORPAY_KEY_ID) then
    (respMisconfigRz, [], store)
  else
    let oid := b.razorpay_order_id.getD ""
    let pid := b.razorpay_payment_id.getD ""
    let sig := b.razorpay_signature.getD ""
    let generatedSignature :=
      hmacSha256Hex (env.RAZORPAY_KEY_SECRET.getD "") (oid ++ "|" ++ pid)
    if generatedSignature ≠ sig then (respInvalidSig, [], store)
    else afterSigC env fetch store b oid pid sig headerKey now newId

/-! ## Second verification handler (`src/index.js`, second variant) -/

/-- The body fields destructured by the second variant. -/
structure VerifyBodyB where
  razorpay_order_id : Option String := none
  razorpay_payment_id : Option String := none
  razorpay_signature : Option String := none
  expectedAmount : Option JsNum := none
deriving Repr, DecidableEq

/-- 400 `Invalid JSON` (second variant only). -/
def respInvalidJSON : Response :=
  { status := 400, success := false, message := some "Invalid JSON" }

/-- 500 from the second variant outer catch: `{ success:false, error }`. -/
def respThrowB (err : String) : Response :=
  { status := 500, success := false, error := some err }

/-- Best-effort failure persist of the second variant: look up the order
document and, when found, apply the diagnostic patch; absence persists
nothing (store errors cannot arise in the reliable-store model, so the
inner catch never fires). -/
def bestEffortPersistB (store : List Doc) (oid : String)
    (patch : List (String × FieldVal)) : List ExtCall × List Doc :=
  match findByOrderId store oid with
  | some d => ([.listDocuments oid, .updateDocument d.id patch],
               updateStore store d.id patch)
  | none => ([.listDocuments oid], store)

/-- Signature-mismatch diagnostic patch (`status payment_failed_signature`). -/
def payloadBSigFail (pid sig g : String) : List (String × FieldVal) :=
  [("razorpay_payment_id", .str pid),
   ("razorpay_signature", .str sig),
   ("status", .str "payment_failed_signature"),
   ("verification_raw", .blob (.sigMismatch g sig))]

/-- Amount-mismatch diagnostic patch
(`status payment_failed_amount_mismatch`). -/
def payloadBAmountFail (pid sig : String) (expected : JsNum)
    (actual : Option ℚ) : List (String × FieldVal) :=
  [("razorpay_payment_id", .str pid),
   ("razorpay_signature", .str sig),
   ("status", .str "payment_failed_amount_mismatch"),
   ("verification_raw", .blob (.amountMismatch expected actual))]

/-- The amount cross-check of the second variant: active only when
`expectedAmount` is truthy and the fetched payment has an amount. -/
def amountMismatchB (ea : Option JsNum) (pd : Option Payment) : Bool :=
  match ea, pd with
  | some a, some p =>
      if a.truthy then
        match p.amount with
        | some pa => !(jsEqNum (.num pa) (expectedPaiseA a))
        | none => false
      else false
  | _, _ => false

/-- The terminal update payload of the second variant: payment id,
signature, status `paid`, diagnostic blob; payment-detail fields only
when the fetch succeeded (an `undefined` amount assignment is dropped by
JSON serialization, so it is omitted). -/
def payloadBFinal (pid sig now : String) (pd : Option Payment) :
    List (String × FieldVal) :=
  [("razorpay_payment_id", .str pid),
   ("razorpay_signature", .str sig),
   ("status", .str "paid"),
   ("verification_raw", .blob (.verifiedBlob now pd))] ++
  (match pd with
   | some p =>
       (match p.amount with
        | some q => [("amountPaisePaid", FieldVal.num (.num q))]
        | none => []) ++
       [("payment_method", FieldVal.str p.method),
        ("payment_status", FieldVal.str p.status)]
   | none => [])

/-- The second verification handler of `src/index.js`: rejects a missing
order document with 404 `Order not found`, persists diagnostic statuses
on signature or amount mismatch, and otherwise updates the document to
`paid`.  An unset signing secret makes `createHmac` throw, surfaced by
the outer catch as a 500. -/
def verifyB (env : Env) (fetch : String → Except String Payment)
    (store : List Doc) (method : String) (b : VerifyBodyB) (now : String) :
    HandlerResult :=
  if method ≠ "POST" then (resp405, [], store)
  else if !(truthyStr b.razorpay_order_id && truthyStr b.razorpay_payment_id &&
            truthyStr b.razorpay_signature) then
    (respMissingFields, [], store)
  else
    match env.RAZORPAY_KEY_SECRET with
    | none => (respThrowB "TypeError", [], store)
    | some secret =>
      let oid := b.razorpay_order_id.getD ""
      let pid := b.razorpay_payment_id.getD ""
      let sig := b.razorpay_signature.getD ""
      let generatedSignature := hmacSha256Hex secret (oid ++ "|" ++ pid)
      if generatedSignature ≠ sig then
        let persisted := bestEffortPersistB store oid
          (payloadBSigFail pid sig generatedSignature)
        (respInvalidSig, persisted.1, persisted.2)
      else
        let pd : Option Payment := (fetch pid).toOption
        let calls := [ExtCall.fetchPayment pid]
        if amountMismatchB b.expectedAmount pd then
          let persisted := bestEffortPersistB store oid
            (payloadBAmountFail pid sig
              (expectedPaiseA (b.expectedAmount.getD .nan))
              (pd.bind Payment.amount))
          (respAmountMismatch, calls ++ persisted.1, persisted.2)
        else
          match findByOrderId store oid with
          | none => (respOrderNotFound, calls ++ [.listDocuments oid], store)
          | some d =>
              let payload := payloadBFinal pid sig now pd
              (respUpdatedB,
               calls ++ [.listDocuments oid, .updateDocument d.id payload],
               updateStore store d.id payload)

/-- Destructure a parsed body value for the second variant. -/
def toVerifyBodyB (bd : JSValue) : VerifyBodyB :=
  { razorpay_order_id := asStrProp bd "razorpay_order_id",
    razorpay_payment_id := asStrProp bd "razorpay_payment_id",
    razorpay_signature := asStrProp bd "razorpay_signature",
    expectedAmount := asNumProp bd "expectedAmount" }

/-- The second variant from its raw body string:
`JSON.parse(req.bodyRaw || "{}")`, rejecting malformed JSON with 400
`Invalid JSON`. -/
def verifyBRaw (parse : String → Option JSValue) (env : Env)
    (fetch : String → Except String Payment) (store : List Doc)
    (method : String) (bodyRaw : Option String) (now : String) :
    HandlerResult :=
  if method ≠ "POST" then (resp405, [], store)
  else
    match parse (if truthyStr bodyRaw then bodyRaw.getD "" else "\x7b\x7d") with
    | none => (respInvalidJSON, [], store)
    | some bd => verifyB env fetch store "POST" (toVerifyBodyB bd) now

/-! ## Order-creation handler (`src/unnamed/part_002`) -/

/-- The body fields destructured by the order-creation handler
(`items = []` and `shippingPrimaryIndex = 0` are destructuring
defaults; `items = none` models a non-array value). -/
structure CreateBody where
  amount : Option JsNum := none
  currency : Option String := some "INR"
  userId : Option String := none
  items : Option (List ItemVal) := some []
  paymentMethod : Option String := none
  payment_method : Option String := none
  shipping : ShipVal := .undefv
  shippingPrimaryIndex : Option JsNum := none
deriving Repr, DecidableEq

/-- `(paymentMethod || payment_method || "razorpay").toLowerCase()`. -/
def pmOf (b : CreateBody) : String :=
  jsToLower ((jsOrStr (jsOrStr b.paymentMethod b.payment_method)
    (some "razorpay")).getD "razorpay")

/-- Per-item truncation limit of the order-creation handler. -/
def TRUNCATE_ITEM : Nat := 9999

/-- Shipping-string truncation limit of the order-creation handler. -/
def TRUNCATE_SHIPPING : Nat := 999

/-- Template rendering of a JS number. -/
def jsNumToString : JsNum → String
  | .nan => "NaN"
  | .num q => if q.den = 1 then toString q.num else toString q

/-- Stand-in for `JSON.stringify` of one line item (the fallback label
when the readable label is 3 characters or shorter; its exact characters
are never read back by the code). -/
def jsonStringifyItem : ItemVal → String
  | .prim s => "\x22" ++ s ++ "\x22"
  | .obj it =>
      let f (k : String) (v : Option String) : List String :=
        match v with
        | some s => ["\x22" ++ k ++ "\x22:\x22" ++ s ++ "\x22"]
        | none => []
      let g (k : String) (v : Option JsNum) : List String :=
        match v with
        | some n => ["\x22" ++ k ++ "\x22:" ++ jsNumToString n]
        | none => []
      "\x7b" ++ String.intercalate ","
        (f "name" it.name ++ f "title" it.title ++ f "productId" it.productId ++
         f "id" it.itemId ++ g "price" it.price ++ g "amount" it.amount ++
         f "size" it.size ++ f "s" it.sAttr ++ f "sizeOption" it.sizeOption ++
         f "item_size" it.item_size) ++ "\x7d"

/-- `stringifyItem` from the order-creation handler: readable
`name (Size: ...) - price` label for objects, pass-through for
primitives, truncated to `TRUNCATE_ITEM`. -/
def stringifyItem (iv : ItemVal) : String :=
  match iv with
  | .prim s => s.take TRUNCATE_ITEM
  | .obj it =>
      let nm := jsOrStr (jsOrStr (jsOrStr it.name it.title) it.productId)
        it.itemId
      let name := if truthyStr nm then nm.getD "" else "item"
      let price : Option JsNum :=
        match it.price with
        | some p => some p
        | none => it.amount
      let szChain := jsOrStr (jsOrStr (jsOrStr it.size it.sAttr) it.sizeOption)
        it.item_size
      let sizeLabel :=
        if truthyStr szChain then " (Size: " ++ szChain.getD "" ++ ")" else ""
      let priceLabel :=
        match price with
        | some p => if p.truthy then " - ₹" ++ jsNumToString p else ""
        | none => ""
      let label := name ++ sizeLabel ++ priceLabel
      let final :=
        if label ≠ "" ∧ label.length > 3 then label else jsonStringifyItem iv
      final.take TRUNCATE_ITEM

/-- The `items` column values: stringified, truncated labels. -/
def itemsForColumn (items : Option (List ItemVal)) : List String :=
  match items with
  | some l => l.map (fun it => (stringifyItem it).take TRUNCATE_ITEM)
  | none => []

/-- `buildShippingShort`: readable comma-joined address summary,
truncated to `TRUNCATE_SHIPPING`. -/
def buildShippingShort (s : Address) : String :=
  let part (o : Option String) : List String :=
    if truthyStr o then [o.getD ""] else []
  let parts :=
    part (jsOrStr s.fullName s.full_name) ++
    part (jsOrStr s.line1 s.line_1) ++
    part (jsOrStr s.line2 s.line_2) ++
    part s.city ++ part s.state ++
    part (jsOrStr s.postalCode s.postal_code) ++
    (if truthyStr s.phone then ["Ph: " ++ s.phone.getD ""] else [])
  (String.intercalate ", " parts).take TRUNCATE_SHIPPING

/-- The size chain `it.size || it.s || it.sizeOption || it.item_size`
of one item, `none` when falsy or the item is not an object. -/
def itemSizeChain : ItemVal → Option String
  | .prim _ => none
  | .obj it =>
      let c := jsOrStr (jsOrStr (jsOrStr it.size it.sAttr) it.sizeOption)
        it.item_size
      if truthyStr c then c else none

/-- The derived top-level size: the first item when it carries a size
attribute, otherwise the first item in the list that does. -/
def primarySizeOf (items : Option (List ItemVal)) : Option String :=
  match items with
  | some (first :: rest) =>
      match itemSizeChain first with
      | some s => some s
      | none => List.findSome? itemSizeChain (first :: rest)
  | _ => none

/-- `!amount || isNaN(Number(amount)) || Number(amount) <= 0`: the
gateway-path amount validation. -/
def amountInvalidRz : Option JsNum → Bool
  | none => true
  | some .nan => true
  | some (.num q) => if q ≤ 0 then true else false

/-- `Math.round(Number(amount || 0) * 100)`: the client-side paise
conversion of the order-creation handler (`NaN` propagates from a
non-numeric truthy amount; a falsy amount reads as 0 either way). -/
def amountPaiseFromClient (a : Option JsNum) : JsNum :=
  ((a.getD (.num 0)).mulC 100).round

/-- 400 missing buyer id. -/
def respUserIdRequired : Response :=
  { status := 400, success := false,
    message := some "userId is required. Please login and send userId." }

/-- 400 missing shipping. -/
def respShippingRequired : Response :=
  { status := 400, success := false,
    message := some "shipping is required. Provide shipping object/array." }

/-- 400 missing size attribute. -/
def respSizeRequired : Response :=
  { status := 400, success := false,
    message := some "size is required (e.g. send size in items[0].size)." }

/-- 400 invalid gateway amount. -/
def respAmountRequired : Response :=
  { status := 400, success := false,
    message := some "Valid amount (in rupees) required for razorpay orders" }

/-- 500 unconfigured gateway credentials. -/
def respRzNotConfigured : Response :=
  { status := 500, success := false,
    message := some "Razorpay credentials not configured" }

/-- 500 from the order-creation outer catch (a thrown gateway error). -/
def respThrowCreate (err : String) : Response :=
  { status := 500, success := false, error := some err }

/-- 405 with the method name interpolated. -/
def respMethodNotAllowed (m : String) : Response :=
  { status := 405, success := false,
    message := some ("Method " ++ m ++ " not allowed") }

/-- The `GET` liveness text response. -/
def respLive : Response :=
  { success := true, message := some "createOrder function is live" }

/-- The 200 success response of the order-creation handler. -/
def respCreateOk : Response := { success := true }

/-- The sequential input-validation gates of the order-creation handler,
in source order: buyer id, shipping, size, gateway amount. -/
def createValidationError (b : CreateBody) : Option Response :=
  if !truthyStr b.userId then some respUserIdRequired
  else if shipArrayOfVal b.shipping = [] then some respShippingRequired
  else if (primarySizeOf b.items).isNone then some respSizeRequired
  else if pmOf b = "razorpay" && amountInvalidRz b.amount then
    some respAmountRequired
  else none

/-- The order document payload written by the order-creation handler
(`shipping_line_2` is commented out in the source and `shipping_state`
is computed but never stored; both are therefore absent here). -/
def payloadCreate (b : CreateBody) (pm oid : String) (amountPaise : JsNum)
    (ro : Option GatewayOrder) : List (String × FieldVal) :=
  let shipArr := shipArrayOfVal b.shipping
  let p := primaryAddress shipArr b.shippingPrimaryIndex
  [("order_id", .str oid),
   ("userId", .str (b.userId.getD "")),
   ("amount", .num amountPaise),
   ("amountPaise", .num amountPaise),
   ("currency", match b.currency with | some c => .str c | none => .vnull),
   ("razorpay_order_id", .str oid),
   ("items", .strList (itemsForColumn b.items)),
   ("items_json", .itemList (b.items.getD [])),
   ("payment_method", .str pm),
   ("status", .str (if pm = "cod" then "pending" else "created")),
   ("shipping", .str (buildShippingShort p)),
   ("shipping_json", .addrList shipArr),
   ("shipping_full_name", fvOfOpt (flatField p.fullName p.full_name)),
   ("shipping_phone", fvOfOpt (flatField p.phone none)),
   ("shipping_line_1", fvOfOpt (flatField p.line1 p.line_1)),
   ("shipping_city", fvOfOpt (flatField p.city none)),
   ("shipping_postal_code", fvOfOpt (flatField p.postalCode p.postal_code)),
   ("shipping_country", .str (countryField p.country)),
   ("size", .str ((primarySizeOf b.items).getD "")),
   ("receipt", match ro with
     | some o => if truthyStr o.receipt then .str (o.receipt.getD "") else .vnull
     | none => .vnull),
   ("verification_raw", .blob (.orderBlob ro))]

/-- The persistence tail of the order-creation handler: with full
Appwrite configuration, look up by order id and update or create;
without it, skip the save. -/
def finishCreate (env : Env) (store : List Doc) (b : CreateBody)
    (pm oid : String) (amountPaise : JsNum) (ro : Option GatewayOrder)
    (newId : String) (calls : List ExtCall) : HandlerResult :=
  if truthyStr env.APPWRITE_ENDPOINT && truthyStr env.APPWRITE_PROJECT_ID &&
     truthyStr env.APPWRITE_API_KEY && truthyStr env.APPWRITE_DATABASE_ID &&
     truthyStr env.APPWRITE_ORDERS_COLLECTION_ID then
    let payload := payloadCreate b pm oid amountPaise ro
    match findByOrderId store oid with
    | some d =>
        (respCreateOk, calls ++ [.listDocuments oid, .updateDocument d.id payload],
         updateStore store d.id payload)
    | none =>
        (respCreateOk, calls ++ [.listDocuments oid, .createDocument payload],
         store ++ [⟨newId, payload⟩])
  else (respCreateOk, calls, store)

/-- The `src/unnamed/part_002` order-creation handler.  `gw` is the
injected gateway `orders.create`; `now` is `Date.now()` and `rand` is
`Math.floor(Math.random() * 10000)`; `newId` is the store-generated
document id used on creation. -/
def createOrder (env : Env)
    (gw : JsNum → Option String → String → Except String GatewayOrder)
    (store : List Doc) (method : String) (b : CreateBody) (now rand : Nat)
    (newId : String) : HandlerResult :=
  if method ≠ "POST" then
    (if method = "GET" then respLive else respMethodNotAllowed method, [], store)
  else
    match createValidationError b with
    | some r => (r, [], store)
    | none =>
      let amountPaiseClient := amountPaiseFromClient b.amount
      if pmOf b = "razorpay" then
        if !(truthyStr env.RAZORPAY_KEY_ID && truthyStr env.RAZORPAY_KEY_SECRET)
        then (respRzNotConfigured, [], store)
        else
          let receipt := "order_rcpt_" ++ toString now
          match gw amountPaiseClient b.currency receipt with
          | .error e =>
              (respThrowCreate e,
               [.ordersCreate amountPaiseClient b.currency receipt], store)
          | .ok o =>
              finishCreate env store b (pmOf b) o.id (.num o.amount) (some o)
                newId [.ordersCreate amountPaiseClient b.currency receipt]
      else
        let oid := "cod_" ++ toString now ++ "_" ++ toString rand
        finishCreate env store b (pmOf b) oid amountPaiseClient none newId []


/-! ## Evaluation helpers for `jsRound` and JS numbers

Mathlib's rational arithmetic is irreducible to `decide`, so concrete
rounding facts are established through these lemmas and `norm_num`. -/

/-- `Math.round` fixes integers. -/
theorem jsRound_intCast (z : ℤ) : jsRound (z : ℚ) = z := by
  unfold jsRound
  rw [Int.floor_int_add]
  have h0 : ⌊(1 / 2 : ℚ)⌋ = 0 := by
    rw [Int.floor_eq_zero_iff]
    constructor <;> norm_num
  rw [h0, add_zero]

/-- Evaluate `Math.round` at a value shown rational-equal to an
integer. -/
theorem jsRound_eval {a : ℚ} {z : ℤ} (h : a = (z : ℚ)) : jsRound a = z := by
  rw [h, jsRound_intCast]

/-- Denominator of an integer rational. -/
theorem den_eval {a : ℚ} {z : ℤ} (h : a = (z : ℚ)) : a.den = 1 := by
  rw [h, Rat.den_intCast]

/-- Evaluate the part_001 heuristic below the 1000 cut. -/
theorem expectedPaiseC_rupees {q : ℚ} {z : ℤ} (h1 : q < 1000)
    (h2 : q * 100 = (z : ℚ)) : expectedPaiseC (.num q) = .num (z : ℚ) := by
  simp only [expectedPaiseC]
  rw [if_pos h1, jsRound_eval h2]

/-- Evaluate the part_001 heuristic on integers between the cuts. -/
theorem expectedPaiseC_mid {q : ℚ} {z : ℤ} (h1 : ¬ q < 1000)
    (h2 : q < 1000000) (h3 : q.den = 1) (h4 : q * 100 = (z : ℚ)) :
    expectedPaiseC (.num q) = .num (z : ℚ) := by
  simp only [expectedPaiseC]
  rw [if_neg h1, if_pos ⟨h2, h3⟩, jsRound_eval h4]

/-- Evaluate the part_001 heuristic above the cuts. -/
theorem expectedPaiseC_hi {q : ℚ} (h1 : ¬ q < 1000)
    (h2 : ¬(q < 1000000 ∧ q.den = 1)) : expectedPaiseC (.num q) = .num q := by
  simp only [expectedPaiseC]
  rw [if_neg h1, if_neg h2]

/-- Evaluate the `index.js` conversion `Math.round(Number(a) * 100)`. -/
theorem expectedPaiseA_eval {q : ℚ} {z : ℤ} (h : q * 100 = (z : ℚ)) :
    expectedPaiseA (.num q) = .num (z : ℚ) := by
  simp only [expectedPaiseA, JsNum.mulC, JsNum.round]
  rw [jsRound_eval h]

/-- Evaluate the order-creation conversion at a numeric amount. -/
theorem amountPaiseFromClient_eval {q : ℚ} {z : ℤ} (h : q * 100 = (z : ℚ)) :
    amountPaiseFromClient (some (.num q)) = .num (z : ℚ) := by
  simp only [amountPaiseFromClient, Option.getD, JsNum.mulC, JsNum.round]
  rw [jsRound_eval h]

/-! ## Claims -/

/-- C4 counterexample: the claim maps an input of 49900 to 49900 minor
units, but the part_001 verification heuristic multiplies it by 100
(49900 is an integer below its 1000000 threshold), and the `index.js`
verification conversion does the same unconditionally. -/
theorem claim4_counterexample :
    expectedPaiseC (.num 49900) = .num 4990000 ∧
    (JsNum.num 4990000 ≠ JsNum.num 49900) ∧
    expectedPaiseA (.num 49900) = .num 4990000 := by
  refine ⟨?_, ?_, ?_⟩
  · rw [expectedPaiseC_mid (by norm_num) (by norm_num)
      (den_eval (show (49900 : ℚ) = ((49900 : ℤ) : ℚ) by norm_num))
      (show (49900 : ℚ) * 100 = ((4990000 : ℤ) : ℚ) by norm_num)]
    norm_num
  · simp only [ne_eq, JsNum.num.injEq]
    norm_num
  · rw [expectedPaiseA_eval (show (49900 : ℚ) * 100 = ((4990000 : ℤ) : ℚ) by norm_num)]
    norm_num

/-- C4 amended: 499 resolves to 49900 minor units in every conversion,
but 49900 resolves to 4990000 everywhere; the part_001 heuristic keeps a
value as minor units only from 1000000 upward, and Order Creation
applies no threshold at all, so the two sides disagree at 1500000. -/
theorem claim4_amended :
    expectedPaiseC (.num 499) = .num 49900 ∧
    expectedPaiseC (.num 49900) = .num 4990000 ∧
    expectedPaiseC (.num 1500000) = .num 1500000 ∧
    expectedPaiseA (.num 499) = .num 49900 ∧
    expectedPaiseA (.num 49900) = .num 4990000 ∧
    amountPaiseFromClient (some (.num 499)) = .num 49900 ∧
    amountPaiseFromClient (some (.num 49900)) = .num 4990000 ∧
    amountPaiseFromClient (some (.num 1500000)) = .num 150000000 ∧
    expectedPaiseC (.num 1500000) ≠ amountPaiseFromClient (some (.num 1500000)) := by
  have hc499 : expectedPaiseC (.num 499) = .num 49900 := by
    rw [expectedPaiseC_rupees (by norm_num)
      (show (499 : ℚ) * 100 = ((49900 : ℤ) : ℚ) by norm_num)]
    norm_num
  have hc49900 : expectedPaiseC (.num 49900) = .num 4990000 := by
    rw [expectedPaiseC_mid (by norm_num) (by norm_num)
      (den_eval (show (49900 : ℚ) = ((49900 : ℤ) : ℚ) by norm_num))
      (show (49900 : ℚ) * 100 = ((4990000 : ℤ) : ℚ) by norm_num)]
    norm_num
  have hchi : expectedPaiseC (.num 1500000) = .num 1500000 :=
    expectedPaiseC_hi (by norm_num) (by norm_num)
  have hcree : amountPaiseFromClient (some (.num 1500000)) = .num 150000000 := by
    rw [amountPaiseFromClient_eval
      (show (1500000 : ℚ) * 100 = ((150000000 : ℤ) : ℚ) by norm_num)]
    norm_num
  refine ⟨hc499, hc49900, hchi, ?_, ?_, ?_, ?_, hcree, ?_⟩
  · rw [expectedPaiseA_eval (show (499 : ℚ) * 100 = ((49900 : ℤ) : ℚ) by norm_num)]
    norm_num
  · rw [expectedPaiseA_eval (show (49900 : ℚ) * 100 = ((4990000 : ℤ) : ℚ) by norm_num)]
    norm_num
  · rw [amountPaiseFromClient_eval
      (show (499 : ℚ) * 100 = ((49900 : ℤ) : ℚ) by norm_num)]
    norm_num
  · rw [amountPaiseFromClient_eval
      (show (49900 : ℚ) * 100 = ((4990000 : ℤ) : ℚ) by norm_num)]
    norm_num
  · rw [hchi, hcree]
    simp only [ne_eq, JsNum.num.injEq]
    norm_num

/-- C6: a verification request missing any of the three required fields
is answered 400 `Missing required payment fields` by both the first
`index.js` variant and the part_001 variant, with an empty external-call
trace and an unchanged store: neither the payment gateway nor the
document store is invoked. -/
theorem claim6_missing_fields (env : Env)
    (fetch : String → Except String Payment) (store : List Doc)
    (b : VerifyBody) (hk : Option String) (now newId : String)
    (hmiss : b.razorpay_order_id = none ∨ b.razorpay_payment_id = none ∨
             b.razorpay_signature = none) :
    verifyA env fetch store "POST" b now newId = (respMissingFields, [], store) ∧
    verifyC env fetch store "POST" b hk now newId = (respMissingFields, [], store) := by
  have h : (truthyStr b.razorpay_order_id && truthyStr b.razorpay_payment_id &&
      truthyStr b.razorpay_signature) = false := by
    rcases hmiss with h | h | h <;> simp [h, truthyStr]
  constructor
  · simp only [verifyA]
    rw [if_neg (by simp), if_pos (by simp [h])]
  · simp only [verifyC]
    rw [if_neg (by simp), if_pos (by simp [h])]

/-- C6 witness: a concrete request with no signature field. -/
theorem claim6_missing_fields_witness :
    verifyA { RAZORPAY_KEY_ID := some "id", RAZORPAY_KEY_SECRET := some "abc" }
        (fun _ => .error "down") [] "POST"
        { razorpay_order_id := some "order1", razorpay_payment_id := some "pay1" }
        "t0" "n1" = (respMissingFields, [], []) ∧
    verifyC { RAZORPAY_KEY_ID := some "id", RAZORPAY_KEY_SECRET := some "abc" }
        (fun _ => .error "down") [] "POST"
        { razorpay_order_id := some "order1", razorpay_payment_id := some "pay1" }
        none "t0" "n1" = (respMissingFields, [], []) :=
  claim6_missing_fields _ _ _ _ _ _ _ (Or.inr (Or.inr rfl))

/-- C1: with the three fields present and the secret configured, both
cited verification handlers compute the hex HMAC-SHA256 of
`orderId + "|" + paymentId` under the configured secret; on any
difference from the client signature they answer 400
`Invalid signature` (no external call, store untouched), and they reach
the post-signature continuation exactly when the two strings are
equal. -/
theorem claim1_signature_check (env : Env)
    (fetch : String → Except String Payment) (store : List Doc)
    (b : VerifyBody) (hk : Option String) (now newId : String)
    (oid pid sig secret : String)
    (hoid : b.razorpay_order_id = some oid) (hoid2 : oid ≠ "")
    (hpid : b.razorpay_payment_id = some pid) (hpid2 : pid ≠ "")
    (hsig : b.razorpay_signature = some sig) (hsig2 : sig ≠ "")
    (hsec : env.RAZORPAY_KEY_SECRET = some secret) (hsec2 : secret ≠ "")
    (hkey : truthyStr env.RAZORPAY_KEY_ID = true) :
    (hmacSha256Hex secret (oid ++ "|" ++ pid) ≠ sig →
      verifyA env fetch store "POST" b now newId = (respInvalidSig, [], store) ∧
      verifyC env fetch store "POST" b hk now newId = (respInvalidSig, [], store)) ∧
    (hmacSha256Hex secret (oid ++ "|" ++ pid) = sig →
      verifyA env fetch store "POST" b now newId =
        afterSigA fetch store b oid pid sig now newId ∧
      verifyC env fetch store "POST" b hk now newId =
        afterSigC env fetch store b oid pid sig hk now newId) := by
  have t1 : truthyStr (some oid) = true := by simp [truthyStr, hoid2]
  have t2 : truthyStr (some pid) = true := by simp [truthyStr, hpid2]
  have t3 : truthyStr (some sig) = true := by simp [truthyStr, hsig2]
  have t4 : truthyStr (some secret) = true := by simp [truthyStr, hsec2]
  constructor
  · intro hne
    constructor
    · simp [verifyA, hoid, hpid, hsig, hsec, t1, t2, t3, t4, hkey, hne]
    · simp [verifyC, hoid, hpid, hsig, hsec, t1, t2, t3, t4, hkey, hne]
  · intro heq
    constructor
    · simp [verifyA, hoid, hpid, hsig, hsec, t1, t2, t3, t4, hkey, heq]
    · simp [verifyC, hoid, hpid, hsig, hsec, t1, t2, t3, t4, hkey, heq]

set_option maxRecDepth 1000000 in
/-- C1 witness: a concrete mismatching signature is rejected by both
handlers with 400 `Invalid signature` and no external call. -/
theorem claim1_signature_check_witness :
    verifyA { RAZORPAY_KEY_ID := some "id", RAZORPAY_KEY_SECRET := some "abc" }
        (fun _ => .error "down") [] "POST"
        { razorpay_order_id := some "order1", razorpay_payment_id := some "pay1",
          razorpay_signature := some "x" } "t0" "n1" = (respInvalidSig, [], []) ∧
    verifyC { RAZORPAY_KEY_ID := some "id", RAZORPAY_KEY_SECRET := some "abc" }
        (fun _ => .error "down") [] "POST"
        { razorpay_order_id := some "order1", razorpay_payment_id := some "pay1",
          razorpay_signature := some "x" } none "t0" "n1" =
      (respInvalidSig, [], []) :=
  (claim1_signature_check _ _ _ _ _ _ _ "order1" "pay1" "x" "abc"
    rfl (by decide) rfl (by decide) rfl (by decide) rfl (by decide)
    (by decide)).1 (by decide)

/-! ## Concrete fixtures shared by witnesses and counterexamples -/

/-- A configured environment (HMAC secret `"abc"`). -/
def envW : Env := { RAZORPAY_KEY_ID := some "id", RAZORPAY_KEY_SECRET := some "abc" }

/-- `hmacSha256Hex "abc" "order1|pay1"`: the valid client signature for
the fixture order and payment ids under the fixture secret. -/
def sigOK : String :=
  "353d5573de4a295870ebb4170e5f62e851f7abcf8044fedebdb5642930b2f71b"

/-- A verification body carrying the fixture ids and valid signature. -/
def bodyW : VerifyBody :=
  { razorpay_order_id := some "order1", razorpay_payment_id := some "pay1",
    razorpay_signature := some sigOK }

/-- The same fixture body for the second variant. -/
def bodyWB : VerifyBodyB :=
  { razorpay_order_id := some "order1", razorpay_payment_id := some "pay1",
    razorpay_signature := some sigOK }

/-- A payment-detail fetch that fails (non-fatal in every variant). -/
def fetchDown : String → Except String Payment := fun _ => .error "down"

set_option maxRecDepth 1000000 in
/-- C2 counterexample: on the first `index.js` variant, a validly signed
verification of an order id with no existing record is answered with
200 success and a `createDocument` call that inserts a fresh `paid`
record — not with the claimed 404 `Order not found` and absence of
record creation.  (The part_001 variant has the same update-or-create
shape.) -/
theorem claim2_counterexample :
    verifyA envW fetchDown [] "POST" bodyW "t0" "n1" =
      (respSavedA,
       [.fetchPayment "pay1", .listDocuments "order1",
        .createDocument (payloadA bodyW "order1" "pay1" sigOK none "t0")],
       [⟨"n1", payloadA bodyW "order1" "pay1" sigOK none "t0"⟩]) := by
  decide

/-- `expectedAmount` absent disables the second variant amount check. -/
theorem amountMismatchB_none (pd : Option Payment) :
    amountMismatchB none pd = false := by
  cases pd <;> rfl

/-- C2 amended: only the second `index.js` variant implements the
claimed behavior — after a successful signature check (and with no
client `expectedAmount`), an order id with no existing record is
answered 404 `Order not found`, no document is created, and the store is
unchanged; the first variant and the part_001 variant instead create a
fresh record (see the counterexample). -/
theorem claim2_amended (env : Env) (fetch : String → Except String Payment)
    (store : List Doc) (b : VerifyBodyB) (now : String)
    (oid pid sig secret : String)
    (hoid : b.razorpay_order_id = some oid) (hoid2 : oid ≠ "")
    (hpid : b.razorpay_payment_id = some pid) (hpid2 : pid ≠ "")
    (hsig : b.razorpay_signature = some sig) (hsig2 : sig ≠ "")
    (hsec : env.RAZORPAY_KEY_SECRET = some secret)
    (heq : hmacSha256Hex secret (oid ++ "|" ++ pid) = sig)
    (hea : b.expectedAmount = none)
    (habsent : findByOrderId store oid = none) :
    verifyB env fetch store "POST" b now =
      (respOrderNotFound, [.fetchPayment pid, .listDocuments oid], store) := by
  have t1 : truthyStr (some oid) = true := by simp [truthyStr, hoid2]
  have t2 : truthyStr (some pid) = true := by simp [truthyStr, hpid2]
  have t3 : truthyStr (some sig) = true := by simp [truthyStr, hsig2]
  simp [verifyB, hoid, hpid, hsig, hsec, t1, t2, t3, heq, hea,
    amountMismatchB_none, habsent]

set_option maxRecDepth 1000000 in
/-- C2 amended witness: the concrete fixture against the second variant
and an empty store. -/
theorem claim2_amended_witness :
    verifyB envW fetchDown [] "POST" bodyWB "t0" =
      (respOrderNotFound, [.fetchPayment "pay1", .listDocuments "order1"], []) :=
  claim2_amended _ _ _ _ _ "order1" "pay1" sigOK "abc"
    rfl (by decide) rfl (by decide) rfl (by decide) rfl (by decide) rfl rfl

/-- Lookup hits in the left part of an append when it hits there. -/
theorem lookup_append_left {β : Type} (l1 l2 : List (String × β)) (k : String)
    (v : β) (h : List.lookup k l1 = some v) :
    List.lookup k (l1 ++ l2) = some v := by
  induction l1 with
  | nil => simp [List.lookup] at h
  | cons a t ih =>
    cases a with
    | mk k2 v2 =>
      rw [List.cons_append]
      simp only [List.lookup] at h ⊢
      cases hkk : (k == k2)
      · rw [hkk] at h
        exact ih h
      · rw [hkk] at h
        exact h

/-- A patched attribute reads back from a merged document. -/
theorem getField_merge (old patch : List (String × FieldVal)) (k : String)
    (v : FieldVal) (h : getField patch k = some v) :
    getField (mergeFields old patch) k = some v :=
  lookup_append_left patch _ k v h

/-- The first variant payload always carries status `paid`. -/
theorem getField_payloadA_status (b : VerifyBody) (oid pid sig : String)
    (pd : Option Payment) (now : String) :
    getField (payloadA b oid pid sig pd now) "status" = some (.str "paid") := rfl

/-- A missing client amount disables the first variant amount check. -/
theorem amountMismatchA_none (pd : Option Payment) :
    amountMismatchA none pd = false := by
  cases pd <;> rfl

/-- A document already marked paid, as found by the lookup. -/
def paidDoc : Doc :=
  ⟨"d1", [("razorpay_order_id", .str "order1"), ("status", .str "paid")]⟩

set_option maxRecDepth 1000000 in
/-- C3 counterexample: on the first `index.js` variant, a validly signed
verification against an order record already marked `paid` issues an
`updateDocument` write — the claimed write-free no-op short-circuit does
not exist. -/
theorem claim3_counterexample :
    verifyA envW fetchDown [paidDoc] "POST" bodyW "t0" "n1" =
      (respSavedA,
       [.fetchPayment "pay1", .listDocuments "order1",
        .updateDocument "d1" (payloadA bodyW "order1" "pay1" sigOK none "t0")],
       updateStore [paidDoc] "d1"
         (payloadA bodyW "order1" "pay1" sigOK none "t0")) ∧
    ((verifyA envW fetchDown [paidDoc] "POST" bodyW "t0"
        "n1").2.1.filter ExtCall.isWrite).length = 1 := by
  constructor
  · decide
  · decide

/-- C3 amended: a validly signed re-verification of an order already
marked `paid` (first `index.js` variant, no client amount) returns
success and leaves the record status `paid`, but it does so by issuing
exactly one further `updateDocument` write — there is no write-free
short-circuit. -/
theorem claim3_amended (env : Env) (fetch : String → Except String Payment)
    (store : List Doc) (b : VerifyBody) (now newId : String)
    (oid pid sig secret : String) (d : Doc)
    (hoid : b.razorpay_order_id = some oid) (hoid2 : oid ≠ "")
    (hpid : b.razorpay_payment_id = some pid) (hpid2 : pid ≠ "")
    (hsig : b.razorpay_signature = some sig) (hsig2 : sig ≠ "")
    (hsec : env.RAZORPAY_KEY_SECRET = some secret) (hsec2 : secret ≠ "")
    (hkey : truthyStr env.RAZORPAY_KEY_ID = true)
    (heq : hmacSha256Hex secret (oid ++ "|" ++ pid) = sig)
    (hamt : b.amount = none)
    (hfound : findByOrderId store oid = some d)
    (hpaid : getField d.fields "status" = some (.str "paid")) :
    verifyA env fetch store "POST" b now newId =
      (respSavedA,
       [.fetchPayment pid, .listDocuments oid,
        .updateDocument d.id (payloadA b oid pid sig ((fetch pid).toOption) now)],
       updateStore store d.id (payloadA b oid pid sig ((fetch pid).toOption) now)) ∧
    getField (mergeFields d.fields
        (payloadA b oid pid sig ((fetch pid).toOption) now)) "status" =
      some (.str "paid") := by
  have t1 : truthyStr (some oid) = true := by simp [truthyStr, hoid2]
  have t2 : truthyStr (some pid) = true := by simp [truthyStr, hpid2]
  have t3 : truthyStr (some sig) = true := by simp [truthyStr, hsig2]
  have t4 : truthyStr (some secret) = true := by simp [truthyStr, hsec2]
  constructor
  · simp [verifyA, afterSigA, hoid, hpid, hsig, hsec, t1, t2, t3, t4, hkey,
      heq, hamt, amountMismatchA_none, hfound]
  · exact getField_merge _ _ _ _ (getField_payloadA_status b oid pid sig _ now)

set_option maxRecDepth 1000000 in
/-- C3 amended witness: the paid fixture record is updated once and
stays paid. -/
theorem claim3_amended_witness :
    verifyA envW fetchDown [paidDoc] "POST" bodyW "t0" "n1" =
      (respSavedA,
       [.fetchPayment "pay1", .listDocuments "order1",
        .updateDocument "d1" (payloadA bodyW "order1" "pay1" sigOK none "t0")],
       updateStore [paidDoc] "d1"
         (payloadA bodyW "order1" "pay1" sigOK none "t0")) ∧
    getField (mergeFields paidDoc.fields
        (payloadA bodyW "order1" "pay1" sigOK none "t0")) "status" =
      some (.str "paid") :=
  claim3_amended envW fetchDown [paidDoc] bodyW "t0" "n1" "order1" "pay1"
    sigOK "abc" paidDoc rfl (by decide) rfl (by decide) rfl (by decide) rfl
    (by decide) (by decide) (by decide) rfl rfl rfl

/-- A fetched payment whose gateway status is not `captured`. -/
def authPayment : Payment :=
  { id := "pay1", amount := none, status := "authorized", method := "card" }

/-- A payment-detail fetch reporting the non-captured payment. -/
def fetchAuth : String → Except String Payment := fun _ => .ok authPayment

/-- The order record as Order Creation left it. -/
def createdDoc : Doc :=
  ⟨"d1", [("razorpay_order_id", .str "order1"), ("status", .str "created")]⟩

set_option maxRecDepth 1000000 in
/-- C5 counterexample: with the gateway reporting payment status
`authorized` (not captured), the first `index.js` variant still answers
200 success and updates the record to status `paid` — the claimed 400
rejection with a persisted `payment_authorized` state does not exist. -/
theorem claim5_counterexample :
    verifyA envW fetchAuth [createdDoc] "POST" bodyW "t0" "n1" =
      (respSavedA,
       [.fetchPayment "pay1", .listDocuments "order1",
        .updateDocument "d1"
          (payloadA bodyW "order1" "pay1" sigOK (some authPayment) "t0")],
       updateStore [createdDoc] "d1"
         (payloadA bodyW "order1" "pay1" sigOK (some authPayment) "t0")) ∧
    getField (mergeFields createdDoc.fields
        (payloadA bodyW "order1" "pay1" sigOK (some authPayment) "t0"))
      "status" = some (.str "paid") := by
  constructor
  · decide
  · rfl

/-- C5 amended: no verification variant checks the capture state.  For
an arbitrary fetched payment (any gateway status), the first `index.js`
variant answers success and updates the record to status `paid`; the
second variant stores the raw gateway status under the `payment_status`
attribute of its update payload while likewise setting status `paid`. -/
theorem claim5_amended (env : Env) (store : List Doc) (b : VerifyBody)
    (now newId : String) (oid pid sig secret : String) (d : Doc) (p : Payment)
    (hoid : b.razorpay_order_id = some oid) (hoid2 : oid ≠ "")
    (hpid : b.razorpay_payment_id = some pid) (hpid2 : pid ≠ "")
    (hsig : b.razorpay_signature = some sig) (hsig2 : sig ≠ "")
    (hsec : env.RAZORPAY_KEY_SECRET = some secret) (hsec2 : secret ≠ "")
    (hkey : truthyStr env.RAZORPAY_KEY_ID = true)
    (heq : hmacSha256Hex secret (oid ++ "|" ++ pid) = sig)
    (hamt : b.amount = none)
    (hfound : findByOrderId store oid = some d) :
    verifyA env (fun _ => .ok p) store "POST" b now newId =
      (respSavedA,
       [.fetchPayment pid, .listDocuments oid,
        .updateDocument d.id (payloadA b oid pid sig (some p) now)],
       updateStore store d.id (payloadA b oid pid sig (some p) now)) ∧
    getField (mergeFields d.fields (payloadA b oid pid sig (some p) now))
      "status" = some (.str "paid") ∧
    getField (payloadBFinal pid sig now (some p)) "status" =
      some (.str "paid") ∧
    getField (payloadBFinal pid sig now (some p)) "payment_status" =
      some (.str p.status) := by
  have t1 : truthyStr (some oid) = true := by simp [truthyStr, hoid2]
  have t2 : truthyStr (some pid) = true := by simp [truthyStr, hpid2]
  have t3 : truthyStr (some sig) = true := by simp [truthyStr, hsig2]
  have t4 : truthyStr (some secret) = true := by simp [truthyStr, hsec2]
  refine ⟨?_, ?_, ?_, ?_⟩
  · simp [verifyA, afterSigA, hoid, hpid, hsig, hsec, t1, t2, t3, t4, hkey,
      heq, hamt, amountMismatchA_none, hfound, Except.toOption]
  · exact getField_merge _ _ _ _ (getField_payloadA_status b oid pid sig _ now)
  · rfl
  · cases hpa : p.amount <;> simp [payloadBFinal, getField, List.lookup, hpa]

set_option maxRecDepth 1000000 in
/-- C5 amended witness: the `authorized` fixture payment still yields a
`paid` record and a success response. -/
theorem claim5_amended_witness :
    verifyA envW (fun _ => .ok authPayment) [createdDoc] "POST" bodyW "t0" "n1" =
      (respSavedA,
       [.fetchPayment "pay1", .listDocuments "order1",
        .updateDocument "d1"
          (payloadA bodyW "order1" "pay1" sigOK (some authPayment) "t0")],
       updateStore [createdDoc] "d1"
         (payloadA bodyW "order1" "pay1" sigOK (some authPayment) "t0")) ∧
    getField (mergeFields createdDoc.fields
        (payloadA bodyW "order1" "pay1" sigOK (some authPayment) "t0"))
      "status" = some (.str "paid") ∧
    getField (payloadBFinal "pay1" sigOK "t0" (some authPayment)) "status" =
      some (.str "paid") ∧
    getField (payloadBFinal "pay1" sigOK "t0" (some authPayment))
      "payment_status" = some (.str authPayment.status) :=
  claim5_amended envW [createdDoc] bodyW "t0" "n1" "order1" "pay1" sigOK "abc"
    createdDoc authPayment rfl (by decide) rfl (by decide) rfl (by decide)
    rfl (by decide) (by decide) (by decide) rfl rfl

/-- The validation gates all pass. -/
theorem createValidationError_eq_none (b : CreateBody)
    (hu : truthyStr b.userId = true)
    (hship : shipArrayOfVal b.shipping ≠ [])
    (hsize : (primarySizeOf b.items).isSome = true)
    (hamt : pmOf b = "razorpay" → amountInvalidRz b.amount = false) :
    createValidationError b = none := by
  have h4 : (decide (pmOf b = "razorpay") && amountInvalidRz b.amount) ≠ true := by
    intro hc
    rw [Bool.and_eq_true] at hc
    exact absurd hc.2 (by simp [hamt (of_decide_eq_true hc.1)])
  unfold createValidationError
  rw [if_neg (by simp [hu]), if_neg hship,
    if_neg (by
      simp only [Option.isNone_iff_eq_none]
      exact Option.isSome_iff_ne_none.mp hsize),
    if_neg h4]

/-- Every validation rejection is a 400. -/
theorem createValidationError_status (b : CreateBody) (r : Response)
    (h : createValidationError b = some r) : r.status = 400 := by
  unfold createValidationError at h
  split_ifs at h
  all_goals rw [← Option.some.inj h]
  all_goals rfl

/-- The validation gates fail exactly on the four input defects. -/
theorem createValidationError_isSome_iff (b : CreateBody) :
    (createValidationError b).isSome = true ↔
      (truthyStr b.userId = false ∨ shipArrayOfVal b.shipping = [] ∨
       primarySizeOf b.items = none ∨
       (pmOf b = "razorpay" ∧ amountInvalidRz b.amount = true)) := by
  unfold createValidationError
  split_ifs with h1 h2 h3 h4 <;>
    simp_all [Option.isNone_iff_eq_none, Option.isSome_iff_ne_none]

/-- The persistence tail always answers the 200 success response. -/
theorem finishCreate_resp (env : Env) (store : List Doc) (b : CreateBody)
    (pm oid : String) (ap : JsNum) (ro : Option GatewayOrder)
    (newId : String) (calls : List ExtCall) :
    (finishCreate env store b pm oid ap ro newId calls).1 = respCreateOk := by
  unfold finishCreate
  split
  · split <;> rfl
  · rfl

/-- The persistence tail keeps the head of a nonempty call trace. -/
theorem finishCreate_calls_head (env : Env) (store : List Doc)
    (b : CreateBody) (pm oid : String) (ap : JsNum) (ro : Option GatewayOrder)
    (newId : String) (c : ExtCall) (cs : List ExtCall) :
    (finishCreate env store b pm oid ap ro newId (c :: cs)).2.1.head? =
      some c := by
  unfold finishCreate
  split
  · split <;> rfl
  · rfl

/-- The paise conversion at a numeric client amount. -/
theorem amountPaiseFromClient_num (q : ℚ) :
    amountPaiseFromClient (some (.num q)) = .num (jsRound (q * 100) : ℤ) := rfl

/-- The paise conversion of a missing amount is zero. -/
theorem amountPaiseFromClient_missing : amountPaiseFromClient none = .num 0 := by
  have h : amountPaiseFromClient none = .num ((jsRound ((0 : ℚ) * 100) : ℤ) : ℚ) := rfl
  rw [h, jsRound_eval (show (0 : ℚ) * 100 = ((0 : ℤ) : ℚ) by norm_num)]
  norm_num

/-- C7: a valid gateway-paid creation request invokes the gateway
order-create exactly once, with amount `round(amount * 100)`, the
request currency, and the receipt `order_rcpt_<now>`; if that call
fails, the handler answers 500 carrying the gateway error message. -/
theorem claim7_gateway_create (env : Env)
    (gw : JsNum → Option String → String → Except String GatewayOrder)
    (store : List Doc) (b : CreateBody) (now rand : Nat) (newId : String)
    (q : ℚ)
    (hu : truthyStr b.userId = true)
    (hship : shipArrayOfVal b.shipping ≠ [])
    (hsize : (primarySizeOf b.items).isSome = true)
    (hpm : pmOf b = "razorpay")
    (hamt : b.amount = some (.num q)) (hq : 0 < q)
    (hkeys : (truthyStr env.RAZORPAY_KEY_ID &&
              truthyStr env.RAZORPAY_KEY_SECRET) = true) :
    (∀ e, gw (.num (jsRound (q * 100) : ℤ)) b.currency
        ("order_rcpt_" ++ toString now) = .error e →
      createOrder env gw store "POST" b now rand newId =
        (respThrowCreate e,
         [.ordersCreate (.num (jsRound (q * 100) : ℤ)) b.currency
            ("order_rcpt_" ++ toString now)], store)) ∧
    (createOrder env gw store "POST" b now rand
        newId).2.1.head? =
      some (.ordersCreate (.num (jsRound (q * 100) : ℤ)) b.currency
        ("order_rcpt_" ++ toString now)) := by
  have hinv : amountInvalidRz b.amount = false := by
    rw [hamt]
    show (if q ≤ 0 then true else false) = false
    rw [if_neg (not_le.mpr hq)]
  have hval : createValidationError b = none :=
    createValidationError_eq_none b hu hship hsize (fun _ => hinv)
  have hap : amountPaiseFromClient b.amount = .num (jsRound (q * 100) : ℤ) := by
    rw [hamt, amountPaiseFromClient_num]
  constructor
  · intro e he
    simp [createOrder, hval, hap, hpm, hkeys, he]
  · cases hgw : gw (.num (jsRound (q * 100) : ℤ)) b.currency
      ("order_rcpt_" ++ toString now) with
    | error e => simp [createOrder, hval, hap, hpm, hkeys, hgw]
    | ok o =>
        simp [createOrder, hval, hap, hpm, hkeys, hgw, finishCreate_calls_head]

/-- C7 witness: a concrete valid request against a failing gateway. -/
theorem claim7_gateway_create_witness :
    createOrder envW (fun _ _ _ => .error "gateway down") [] "POST"
      { userId := some "u1",
        items := some [.obj { name := some "Shirt", size := some "M" }],
        amount := some (.num 499),
        shipping := .one { fullName := some "A B", city := some "Pune" } }
      111 7 "n1" =
      (respThrowCreate "gateway down",
       [.ordersCreate (.num (jsRound ((499 : ℚ) * 100) : ℤ)) (some "INR")
          ("order_rcpt_" ++ toString 111)], []) :=
  (claim7_gateway_create envW (fun _ _ _ => .error "gateway down") []
    { userId := some "u1",
      items := some [.obj { name := some "Shirt", size := some "M" }],
      amount := some (.num 499),
      shipping := .one { fullName := some "A B", city := some "Pune" } }
    111 7 "n1" 499 (by decide) (by decide) (by decide) (by decide) rfl
    (by norm_num) (by decide)).1 "gateway down" rfl

/-- C8: on a `POST` request, the order-creation handler answers 400
exactly when the buyer id is falsy, the shipping array is empty, no
line item carries a size attribute, or the payment method resolves to
the gateway and the amount is missing, non-numeric, or non-positive;
any other input proceeds past validation (to a 200 or a 500, never a
400). -/
theorem claim8_validation_iff (env : Env)
    (gw : JsNum → Option String → String → Except String GatewayOrder)
    (store : List Doc) (b : CreateBody) (now rand : Nat) (newId : String) :
    (createOrder env gw store "POST" b now rand newId).1.status = 400 ↔
      (truthyStr b.userId = false ∨ shipArrayOfVal b.shipping = [] ∨
       primarySizeOf b.items = none ∨
       (pmOf b = "razorpay" ∧ amountInvalidRz b.amount = true)) := by
  rw [← createValidationError_isSome_iff]
  unfold createOrder
  rw [if_neg (by simp)]
  cases hv : createValidationError b with
  | some r => simp [createValidationError_status b r hv]
  | none =>
    simp only [Option.isSome_none, Bool.false_eq_true, iff_false]
    split
    · split
      · simp [respRzNotConfigured]
      · split
        · simp [respThrowCreate]
        · rw [finishCreate_resp]
          simp [respCreateOk]
    · rw [finishCreate_resp]
      simp [respCreateOk]

/-- C10: for a collect-on-delivery creation request (valid buyer,
shipping, size), the amount is never validated — the request succeeds
for any amount value, including a missing or non-numeric one — and the
persisted record stores `amountPaise = Math.round(Number(amount || 0) * 100)`
(`amountPaiseFromClient`), which is 0 when the amount is absent. -/
theorem claim10_cod_amount (env : Env)
    (gw : JsNum → Option String → String → Except String GatewayOrder)
    (store : List Doc) (b : CreateBody) (now rand : Nat) (newId : String)
    (hu : truthyStr b.userId = true)
    (hship : shipArrayOfVal b.shipping ≠ [])
    (hsize : (primarySizeOf b.items).isSome = true)
    (hpm : pmOf b = "cod")
    (henv : (truthyStr env.APPWRITE_ENDPOINT &&
             truthyStr env.APPWRITE_PROJECT_ID &&
             truthyStr env.APPWRITE_API_KEY &&
             truthyStr env.APPWRITE_DATABASE_ID &&
             truthyStr env.APPWRITE_ORDERS_COLLECTION_ID) = true)
    (hfresh : findByOrderId store
        ("cod_" ++ toString now ++ "_" ++ toString rand) = none) :
    createOrder env gw store "POST" b now rand newId =
      (respCreateOk,
       [.listDocuments ("cod_" ++ toString now ++ "_" ++ toString rand),
        .createDocument (payloadCreate b "cod"
          ("cod_" ++ toString now ++ "_" ++ toString rand)
          (amountPaiseFromClient b.amount) none)],
       store ++ [⟨newId, payloadCreate b "cod"
          ("cod_" ++ toString now ++ "_" ++ toString rand)
          (amountPaiseFromClient b.amount) none⟩]) ∧
    getField (payloadCreate b "cod"
        ("cod_" ++ toString now ++ "_" ++ toString rand)
        (amountPaiseFromClient b.amount) none) "amountPaise" =
      some (.num (amountPaiseFromClient b.amount)) ∧
    (b.amount = none → amountPaiseFromClient b.amount = .num 0) := by
  have hval : createValidationError b = none :=
    createValidationError_eq_none b hu hship hsize
      (fun hr => absurd (hr.symm.trans hpm) (by decide))
  have hpmneq : ¬ pmOf b = "razorpay" := by
    rw [hpm]
    decide
  refine ⟨?_, rfl, ?_⟩
  · unfold createOrder
    rw [if_neg (by simp), hval]
    simp only
    rw [if_neg hpmneq, hpm]
    unfold finishCreate
    rw [if_pos henv, hfresh]
    simp
  · intro h
    rw [h, amountPaiseFromClient_missing]

/-- C10 witness: a concrete COD request with no amount creates a
record with `amountPaise = 0`. -/
theorem claim10_cod_amount_witness :
    createOrder
      { APPWRITE_ENDPOINT := some "e", APPWRITE_PROJECT_ID := some "p",
        APPWRITE_API_KEY := some "k", APPWRITE_DATABASE_ID := some "d",
        APPWRITE_ORDERS_COLLECTION_ID := some "c" }
      (fun _ _ _ => .error "gw") [] "POST"
      { userId := some "u1",
        items := some [.obj { name := some "Shirt", size := some "M" }],
        paymentMethod := some "cod",
        shipping := .one { fullName := some "A B", city := some "Pune" } }
      111 7 "n1" =
      (respCreateOk,
       [.listDocuments ("cod_" ++ toString 111 ++ "_" ++ toString 7),
        .createDocument (payloadCreate
          { userId := some "u1",
            items := some [.obj { name := some "Shirt", size := some "M" }],
            paymentMethod := some "cod",
            shipping := .one { fullName := some "A B", city := some "Pune" } }
          "cod" ("cod_" ++ toString 111 ++ "_" ++ toString 7)
          (amountPaiseFromClient none) none)],
       [⟨"n1", payloadCreate
          { userId := some "u1",
            items := some [.obj { name := some "Shirt", size := some "M" }],
            paymentMethod := some "cod",
            shipping := .one { fullName := some "A B", city := some "Pune" } }
          "cod" ("cod_" ++ toString 111 ++ "_" ++ toString 7)
          (amountPaiseFromClient none) none⟩]) ∧
    amountPaiseFromClient none = .num 0 := by
  have h := claim10_cod_amount
    { APPWRITE_ENDPOINT := some "e", APPWRITE_PROJECT_ID := some "p",
      APPWRITE_API_KEY := some "k", APPWRITE_DATABASE_ID := some "d",
      APPWRITE_ORDERS_COLLECTION_ID := some "c" }
    (fun _ _ _ => .error "gw") []
    { userId := some "u1",
      items := some [.obj { name := some "Shirt", size := some "M" }],
      paymentMethod := some "cod",
      shipping := .one { fullName := some "A B", city := some "Pune" } }
    111 7 "n1" (by decide) (by decide) (by decide) (by decide) (by decide) rfl
  exact ⟨by simpa using h.1, h.2.2 rfl⟩

/-- Whether a JS value is an object. -/
def isObj : JSValue → Bool
  | .objv _ => true
  | _ => false

/-- The external `JSON.parse` restricted to the literal strings the
concrete runs below feed it: `"null"` parses to JSON `null`, `"{}"`
to the empty object, and anything else is treated as malformed
(a parse throw). -/
def jsonParseFrag : String → Option JSValue := fun s =>
  if s = "null" then some .null
  else if s = "\x7b\x7d" then some (.objv [])
  else none

/-- C9 counterexample: `safeParse` does not return an object for every
raw body.  The body string `"null"` is valid JSON, so `safeParse`
returns JSON `null` unchanged; the subsequent `bodyData.body` property
access then throws, and the handler answers the 500 `Unexpected error`
response instead of the claimed 400. -/
theorem claim9_counterexample :
    safeParse jsonParseFrag (.strv "null") = JSValue.null ∧
    isObj (safeParse jsonParseFrag (.strv "null")) = false ∧
    verifyARaw jsonParseFrag envW fetchDown []
      { bodyRaw := .strv "null" } "t0" "n1" = (respUnexpectedA, [], []) := by
  refine ⟨rfl, rfl, rfl⟩

/-- C9 amended: `safeParse` is total and never throws; a malformed JSON
string, a falsy raw body, and non-string non-object raw values all
yield the empty object, so such requests are answered with the 400
`Missing required payment fields` response.  Only a body that is valid
JSON for a non-object value (such as `"null"`, see the counterexample)
escapes as that value and reaches the outer catch instead. -/
theorem claim9_amended (parse : String → Option JSValue) (env : Env)
    (fetch : String → Except String Payment) (store : List Doc)
    (s now newId : String)
    (hs : parse s = none) (hs2 : s ≠ "") :
    safeParse parse (.strv s) = .objv [] ∧
    verifyARaw parse env fetch store
      { method := "POST", bodyRaw := .strv s } now newId =
      (respMissingFields, [], store) ∧
    (∀ raw, truthyJS raw = false → safeParse parse raw = .objv []) ∧
    (∀ bl : Bool, safeParse parse (.boolv bl) = .objv []) ∧
    (∀ n : JsNum, safeParse parse (.numv n) = .objv []) := by
  have h1 : safeParse parse (.strv s) = .objv [] := by
    unfold safeParse
    simp [truthyJS, hs2, hs]
  refine ⟨h1, ?_, ?_, ?_, ?_⟩
  · have hbp : bodyPhase parse (.strv s) = .ok (.objv []) := by
      unfold bodyPhase
      rw [h1]
      rfl
    unfold verifyARaw
    rw [if_neg (by simp)]
    simp [jsOrV, truthyJS, hs2, hbp, verifyA, toVerifyBody, asStrProp,
      asNumProp, getProp, truthyStr]
  · intro raw hraw
    unfold safeParse
    rw [hraw]
    simp
  · intro bl
    unfold safeParse
    cases bl <;> simp [truthyJS]
  · intro n
    unfold safeParse
    cases hn : n.truthy <;> simp [truthyJS, hn]

/-- C9 amended witness: the unparseable concrete body `"oops"` yields
the empty object and the 400 response. -/
theorem claim9_amended_witness :
    safeParse jsonParseFrag (.strv "oops") = .objv [] ∧
    verifyARaw jsonParseFrag envW fetchDown []
      { method := "POST", bodyRaw := .strv "oops" } "t0" "n1" =
      (respMissingFields, [], []) :=
  ⟨(claim9_amended jsonParseFrag envW fetchDown [] "oops" "t0" "n1" rfl
      (by decide)).1,
   (claim9_amended jsonParseFrag envW fetchDown [] "oops" "t0" "n1" rfl
      (by decide)).2.1⟩
